import Mathlib

/-!
Verification of `wrfpyx.wrf2gfs_params` (file `wrfpyx.py`).

The module converts a WRF NetCDF output file into an xarray dataset with
GFS-style metadata.  We embed the observable behaviour of the single dispatch
function `wrf2gfs_params` shallowly:

* datetimes are modelled as `Int` seconds since the proleptic-Gregorian
  instant 0001-01-01T00:00:00 (the origin of Python's `datetime.toordinal`),
  which is midnight-aligned; `timedelta.days` is floor division by 86400 and
  `timedelta.seconds` is the nonnegative remainder, exactly Lean's `Int`
  `/` (Euclidean, = floor for a positive divisor) and `%`;
* numeric fields are exact rationals (`ℚ`); a squeezed 2-D field is a
  `List (List ℚ)` of rows;
* the NetCDF handle is a record of the attributes and named fields the
  function reads; a field lookup that fails is a Python `KeyError`;
* reading `return ds` with `ds` never assigned is Python's
  `UnboundLocalError`; both are modelled by `Except`;
* `print` diagnostics are collected in a list of strings;
* the metpy humidity formula `relative_humidity_from_specific_humidity` is an
  external black box and is passed in as a function parameter;
* opening the prior-step file (`xr.open_dataset(step_b)`) is external I/O;
  its parsed content is passed in as the `prior` parameter, consulted only
  where the source opens the path.
-/

namespace Wrfpyx

/-- A squeezed 2-D numeric field: a list of rows of exact rationals. -/
abbrev Grid := List (List ℚ)

/-- Membership test `element_exists` from the source: `lst.index(element)`
succeeds iff the element occurs in the list. -/
def element_exists (lst : List String) (element : String) : Bool :=
  decide (element ∈ lst)

/-- Python `timedelta.days` of a difference of `totalSeconds`: floor division
by 86400 (Lean `Int` division is Euclidean, which is floor for a positive
divisor, matching Python `//`). -/
def tdDays (totalSeconds : Int) : Int := totalSeconds / 86400

/-- Python `timedelta.seconds`: the sub-day remainder in `[0, 86400)`. -/
def tdSeconds (totalSeconds : Int) : Int := totalSeconds % 86400

/-- The `hour` attribute of a datetime held as seconds since the
midnight-aligned origin. -/
def hourOfDay (t : Int) : Int := (t / 3600) % 24

/-- Source line `c = b - start_date; hours = c.seconds/(60*60)`, kept in
seconds: the sub-day part of the difference between valid time and start
date. -/
def leadSeconds (valid start : Int) : Int := tdSeconds (valid - start)

/-- The source's `hours` value: `(b - start_date).seconds / 3600`, an exact
rational. -/
def leadHours (valid start : Int) : ℚ := (leadSeconds valid start : ℚ) / 3600

/-- Source lines `delta = b - date_sice; hours_since = delta.days*24 +
int(b.hour)`. -/
def hoursSince (valid epoch : Int) : Int :=
  tdDays (valid - epoch) * 24 + hourOfDay valid

/-- Days of the proleptic Gregorian calendar strictly before January 1 of
year `y` counted from year 1 (Python `datetime(y,1,1).toordinal() - 1`). -/
def daysBeforeYear (y : Nat) : Nat :=
  365 * (y - 1) + (y - 1) / 4 - (y - 1) / 100 + (y - 1) / 400

/-- The instant `datetime.strptime(str(y)+'0101 00','%Y%m%d %H')`, i.e.
January 1 of year `y` at midnight, in seconds since the origin. -/
def jan1 (y : Nat) : Int := (daysBeforeYear y : Int) * 86400

/-- Every `date_sice` epoch the source can build is midnight-aligned. -/
theorem jan1_emod_86400 (y : Nat) : jan1 y % 86400 = 0 := by
  simp [jan1, Int.mul_emod_left]

/-- Python `varname.upper()` on ASCII identifiers: uppercase every
character. -/
def pyUpper (s : String) : String := String.mk (s.data.map Char.toUpper)

/-- Elementwise unary operation on a squeezed 2-D field (numpy
broadcasting of a scalar op). -/
def gridMap (f : ℚ → ℚ) (g : Grid) : Grid := g.map (List.map f)

/-- Elementwise binary operation on two same-shaped squeezed 2-D fields. -/
def gridZip (f : ℚ → ℚ → ℚ) (a b : Grid) : Grid :=
  List.zipWith (List.zipWith f) a b

/-- Three-list pointwise zip, used for the humidity formula applied to
three fields. -/
def zipWith3 {α β γ δ : Type} (f : α → β → γ → δ) :
    List α → List β → List γ → List δ
  | a :: as, b :: bs, c :: cs => f a b c :: zipWith3 f as bs cs
  | _, _, _ => []

/-- Elementwise ternary operation on three same-shaped squeezed 2-D
fields. -/
def gridZip3 (f : ℚ → ℚ → ℚ → ℚ) (a b c : Grid) : Grid :=
  zipWith3 (zipWith3 f) a b c

/-- Source lines `if len(lon.shape) == 2: lon = lon[0,:]`: the first row of
the 2-D `XLONG` grid. -/
def collapseLon (g : Grid) : List ℚ := g.headD []

/-- Source lines `if len(lat.shape) == 2: lat = lat[:,0]`: the first column
of the 2-D `XLAT` grid. -/
def collapseLat (g : Grid) : List ℚ := g.map (fun row => row.headD 0)

/-- `nc.CLDFRA.max(dim='bottom_top')`: elementwise maximum over the list of
vertical levels. -/
def gridMaxLevels : List Grid → Grid
  | [] => []
  | g :: gs => gs.foldl (gridZip max) g

/-- The parsed content of a WRF NetCDF handle: the attributes and named
2-D fields `wrf2gfs_params` reads.  `validTime` is `Times[0]` parsed with
format `%Y-%m-%d_%H:00:00` and `startDate` is the `START_DATE` global
attribute parsed with `%Y-%m-%d_%H:%M:%S`, both as seconds since the
origin; `startYear` is `start_date.year`.  `cldfraLevels` is the 3-D
`CLDFRA` field as a list of level slices when present. -/
structure WRFFile where
  validTime : Int
  startDate : Int
  startYear : Nat
  xlong : Grid
  xlat : Grid
  fields : List (String × Grid)
  cldfraLevels : Option (List Grid)

/-- The exceptions the function body can raise. -/
inductive PyError where
  /-- `nc['NAME']` (or `nc.CLDFRA`) with the field absent. -/
  | keyError (field : String)
  /-- `return ds` reached with `ds` never assigned on the taken path. -/
  | unboundLocal
  deriving DecidableEq, Repr

/-- The returned xarray dataset: either `xr.Dataset()` (no variables, no
coordinates) or a populated dataset with one data variable, the single
`time` coordinate value `hours_since`, an optional
`height_above_ground2` value, and the collapsed `lat`/`lon` vectors. -/
inductive Dataset where
  | empty : Dataset
  | mk (varName : String) (data : Grid) (timeVal : Int) (height : Option Nat)
      (lat lon : List ℚ) : Dataset
  deriving DecidableEq, Repr

/-- The observable outcome of one call: the returned dataset or the raised
exception, together with the `print` diagnostics emitted on the way. -/
structure CallResult where
  result : Except PyError Dataset
  diags : List String
  deriving Repr

/-- Shallow embedding of `wrf2gfs_params(namefile, varname, **kwargs)`.

`sh2rh` is metpy's `relative_humidity_from_specific_humidity` in percent
(external black box); `nc` is the parsed content of `namefile`;
`yearsince` and `step_b` are the two keyword arguments; `prior` is the
parsed content of the path `step_b`, consulted only where the source runs
`xr.open_dataset(step_b)`.  The final source branch guard `var == []`
compares a `str` with a list and is therefore never true, so an
unrecognized key leaves `ds` unassigned and `return ds` raises
`UnboundLocalError`; likewise the RH branch with a missing input prints
its diagnostic but assigns no `ds`. -/
def wrf2gfs_params (sh2rh : ℚ → ℚ → ℚ → ℚ) (nc : WRFFile) (varname : String)
    (yearsince : Option Nat) (step_b : Option String) (prior : WRFFile) :
    CallResult :=
  let b := nc.validTime
  let start_date := nc.startDate
  let hours : ℚ := leadHours b start_date
  let yearsice := yearsince.getD nc.startYear
  let date_sice := jan1 yearsice
  let lon := collapseLon nc.xlong
  let lat := collapseLat nc.xlat
  let hours_since := hoursSince b date_sice
  let var := pyUpper varname
  if var = "U10" then
    match nc.fields.lookup "U10" with
    | some ncvar => ⟨.ok (.mk "Uwind" ncvar hours_since (some 10) lat lon), []⟩
    | none => ⟨.error (.keyError "U10"), []⟩
  else if var = "V10" then
    match nc.fields.lookup "V10" with
    | some ncvar => ⟨.ok (.mk "Vwind" ncvar hours_since (some 10) lat lon), []⟩
    | none => ⟨.error (.keyError "V10"), []⟩
  else if var = "T2" then
    match nc.fields.lookup "T2" with
    | some t2 =>
        ⟨.ok (.mk "Tair" (gridMap (fun x => x - 273.15) t2) hours_since none
          lat lon), []⟩
    | none => ⟨.error (.keyError "T2"), []⟩
  else if var = "RH" then
    let var_keys := nc.fields.map Prod.fst
    let not_key :=
      (["PSFC", "T2", "Q2"]).filter (fun n => ¬ element_exists var_keys n)
    if not_key = [] then
      match nc.fields.lookup "PSFC", nc.fields.lookup "T2",
          nc.fields.lookup "Q2" with
      | some psfc, some t2, some q2 =>
          let pvar := gridMap (fun x => x / 100) psfc
          let tvar := gridMap (fun x => x - 273.15) t2
          let rhvar := gridZip3 sh2rh pvar tvar q2
          ⟨.ok (.mk "Qair" rhvar hours_since none lat lon), []⟩
      | _, _, _ =>
          -- unreachable: membership of all three keys was just checked
          ⟨.error (.keyError "RH"), []⟩
    else
      ⟨.error .unboundLocal,
        ["not all variables available", "program looking in file for :"]
          ++ not_key⟩
  else if var = "PS" then
    match nc.fields.lookup "PSFC" with
    | some psfc =>
        ⟨.ok (.mk "Pair" (gridMap (fun x => x / 100) psfc) hours_since none
          lat lon), []⟩
    | none => ⟨.error (.keyError "PSFC"), []⟩
  else if var = "CLDFRA" then
    match nc.cldfraLevels with
    | some levels =>
        ⟨.ok (.mk "cloud" (gridMaxLevels levels) hours_since none lat lon), []⟩
    | none => ⟨.error (.keyError "CLDFRA"), []⟩
  else if var = "PR" then
    match step_b with
    | some sb =>
        if sb = "" then
          -- falsy but not None: neither `if step_b:` nor `elif step_b == None:`
          -- runs, `ds` stays unassigned
          ⟨.error .unboundLocal, []⟩
        else if hours = 0 then
          match nc.fields.lookup "RAINNC", nc.fields.lookup "RAINC" with
          | some rainnc, some rainc =>
              ⟨.ok (.mk "rain" (gridZip (· + ·) rainnc rainc) hours_since none
                lat lon), []⟩
          | none, _ => ⟨.error (.keyError "RAINNC"), []⟩
          | _, none => ⟨.error (.keyError "RAINC"), []⟩
        else
          match nc.fields.lookup "RAINNC", nc.fields.lookup "RAINC" with
          | some rainnc, some rainc =>
              match prior.fields.lookup "RAINNC", prior.fields.lookup "RAINC" with
              | some rainncB, some raincB =>
                  ⟨.ok (.mk "rain"
                    (gridZip (· - ·) (gridZip (· + ·) rainnc rainc)
                      (gridZip (· + ·) rainncB raincB)) hours_since none
                    lat lon), []⟩
              | none, _ => ⟨.error (.keyError "RAINNC"), []⟩
              | _, none => ⟨.error (.keyError "RAINC"), []⟩
          | none, _ => ⟨.error (.keyError "RAINNC"), []⟩
          | _, none => ⟨.error (.keyError "RAINC"), []⟩
    | none =>
        ⟨.ok .empty, ["- - - - ERROR - - - -", "must be defined step_b"]⟩
  else if var = "LW" then
    match nc.fields.lookup "GLW" with
    | some glw => ⟨.ok (.mk "lwrad_down" glw hours_since none lat lon), []⟩
    | none => ⟨.error (.keyError "GLW"), []⟩
  else if var = "SW" then
    match nc.fields.lookup "SWDOWN" with
    | some sw => ⟨.ok (.mk "swrad" sw hours_since none lat lon), []⟩
    | none => ⟨.error (.keyError "SWDOWN"), []⟩
  else
    -- source: `elif var == []:` — a str never equals a list, so the
    -- invalid-variable branch is dead and `ds` is never assigned
    ⟨.error .unboundLocal, []⟩

/-! Helper lemmas shared by the claim theorems. -/

theorem element_exists_of_lookup {l : List (String × Grid)} {k : String}
    {g : Grid} (h : l.lookup k = some g) :
    element_exists (l.map Prod.fst) k = true := by
  induction l with
  | nil => simp [List.lookup] at h
  | cons hd tl ih =>
    rw [List.lookup_cons] at h
    by_cases hk : k = hd.1
    · simp [element_exists, hk]
    · rw [show (k == hd.1) = false from by simpa using hk] at h
      have := ih h
      simp only [element_exists, decide_eq_true_eq, List.map_cons,
        List.mem_cons] at this ⊢
      exact Or.inr this

theorem element_exists_of_lookup_none {l : List (String × Grid)} {k : String}
    (h : l.lookup k = none) : element_exists (l.map Prod.fst) k = false := by
  induction l with
  | nil => simp [element_exists]
  | cons hd tl ih =>
    rw [List.lookup_cons] at h
    by_cases hk : k = hd.1
    · rw [show (k == hd.1) = true from by simpa using hk] at h
      exact absurd h (by simp)
    · rw [show (k == hd.1) = false from by simpa using hk] at h
      have := ih h
      simp only [element_exists, decide_eq_false_iff_not, List.map_cons,
        List.mem_cons, not_or] at this ⊢
      exact ⟨hk, this⟩

theorem leadHours_eq_zero_of_leadSeconds {v s : Int}
    (h : leadSeconds v s = 0) : leadHours v s = 0 := by
  simp [leadHours, h]

/-- The PR branch at lead 0 with a truthy `step_b`: the rain field is the
current file's `RAINNC + RAINC`; the prior file is never read. -/
theorem pr_branch_lead0 (f : ℚ → ℚ → ℚ → ℚ) (nc prior : WRFFile)
    (ys : Option Nat) (s : String) (hs : s ≠ "")
    (h0 : leadHours nc.validTime nc.startDate = 0) (rnc rc : Grid)
    (hrnc : nc.fields.lookup "RAINNC" = some rnc)
    (hrc : nc.fields.lookup "RAINC" = some rc) :
    wrf2gfs_params f nc "pr" ys (some s) prior
      = ⟨.ok (.mk "rain" (gridZip (· + ·) rnc rc)
          (hoursSince nc.validTime (jan1 (ys.getD nc.startYear))) none
          (collapseLat nc.xlat) (collapseLon nc.xlong)), []⟩ := by
  have hup : pyUpper "pr" = "PR" := by decide
  simp [wrf2gfs_params, hup, hs, h0, hrnc, hrc]

/-! Claim theorems. -/

/-- C6: the source's `hours` value equals the sub-day difference
`(valid_time - start_date).seconds / 3600` and is invariant under shifting
the valid time by any whole number of days. -/
theorem lead_hours_sub_day (v s k : Int) :
    leadHours v s = (tdSeconds (v - s) : ℚ) / 3600 ∧
    leadHours (v + 86400 * k) s = leadHours v s := by
  refine ⟨rfl, ?_⟩
  have h : (v + 86400 * k - s) % 86400 = (v - s) % 86400 := by omega
  simp [leadHours, leadSeconds, tdSeconds, h]

/-- C7: `hours_since = floor_days(valid - epoch) * 24 + valid.hour` is
integer-valued by construction and is monotonically non-decreasing in the
valid time for any fixed midnight-aligned reference epoch (every epoch the
source builds is a January 1 at 00:00). -/
theorem hours_since_monotone (e t1 t2 : Int) (he : e % 86400 = 0)
    (h : t1 ≤ t2) :
    hoursSince t1 e = tdDays (t1 - e) * 24 + hourOfDay t1 ∧
    hoursSince t1 e ≤ hoursSince t2 e := by
  refine ⟨rfl, ?_⟩
  unfold hoursSince tdDays hourOfDay
  omega

/-- Witness for C7 at the concrete epoch 2024-01-01T00:00 and two concrete
valid times one hour apart. -/
theorem hours_since_monotone_witness :
    jan1 2024 % 86400 = 0 ∧ (3600 : Int) ≤ 7200 ∧
    (hoursSince 3600 (jan1 2024) = tdDays (3600 - jan1 2024) * 24
        + hourOfDay 3600 ∧
      hoursSince 3600 (jan1 2024) ≤ hoursSince 7200 (jan1 2024)) :=
  ⟨jan1_emod_86400 2024, by norm_num,
    hours_since_monotone (jan1 2024) 3600 7200 (jan1_emod_86400 2024)
      (by norm_num)⟩

/-- C8: the T2 transform subtracts exactly 273.15 from every element of the
source T2 field, and applied to a field of constant value 300 (Kelvin) every
output element is exactly 26.85 (Celsius). -/
theorem t2_subtract_exact (f : ℚ → ℚ → ℚ → ℚ) (nc prior : WRFFile)
    (ys : Option Nat) (sb : Option String) (g : Grid)
    (hT : nc.fields.lookup "T2" = some g) :
    (wrf2gfs_params f nc "t2" ys sb prior).result
      = .ok (.mk "Tair" (gridMap (fun x => x - 273.15) g)
          (hoursSince nc.validTime (jan1 (ys.getD nc.startYear))) none
          (collapseLat nc.xlat) (collapseLon nc.xlong)) ∧
    ((∀ row ∈ g, ∀ x ∈ row, x = 300) →
      ∀ row ∈ gridMap (fun x => x - 273.15) g, ∀ x ∈ row, x = 26.85) := by
  constructor
  · have hup : pyUpper "t2" = "T2" := by decide
    simp [wrf2gfs_params, hup, hT]
  · intro hconst row hrow x hx
    simp only [gridMap, List.mem_map] at hrow
    obtain ⟨r, hr, rfl⟩ := hrow
    simp only [List.mem_map] at hx
    obtain ⟨y, hy, rfl⟩ := hx
    rw [hconst r hr y hy]
    norm_num

/-- Witness for C8 on a concrete file whose T2 field is the constant-300
grid `[[300, 300]]`. -/
theorem t2_subtract_exact_witness :
    (wrf2gfs_params (fun _ _ _ => 0)
        { validTime := 3600, startDate := 0, startYear := 1,
          xlong := [[5, 6]], xlat := [[1], [2]],
          fields := [("T2", [[300, 300]])], cldfraLevels := none }
        "t2" none none
        { validTime := 0, startDate := 0, startYear := 1, xlong := [],
          xlat := [], fields := [], cldfraLevels := none }).result
      = .ok (.mk "Tair" (gridMap (fun x => x - 273.15) [[300, 300]])
          (hoursSince 3600 (jan1 1)) none (collapseLat [[1], [2]])
          (collapseLon [[5, 6]])) ∧
    (∀ row ∈ gridMap (fun x => x - 273.15) [[(300 : ℚ), 300]],
      ∀ x ∈ row, x = 26.85) := by
  have h := t2_subtract_exact (fun _ _ _ => 0)
    { validTime := 3600, startDate := 0, startYear := 1,
      xlong := [[5, 6]], xlat := [[1], [2]],
      fields := [("T2", [[300, 300]])], cldfraLevels := none }
    { validTime := 0, startDate := 0, startYear := 1, xlong := [],
      xlat := [], fields := [], cldfraLevels := none }
    none none [[300, 300]] (by decide)
  exact ⟨h.1, h.2 (by decide)⟩

/-- C9: the coordinate collapse deterministically takes the first row of the
2-D longitude grid and the first column of the latitude grid, whether or not
the rows are identical; when all rows are identical the result equals any
single row. -/
theorem coordinate_collapse_first (row : List ℚ) (rest : Grid) :
    collapseLon (row :: rest) = row ∧
    collapseLat (row :: rest)
      = row.headD 0 :: rest.map (fun r => r.headD 0) ∧
    ∀ r, (∀ x ∈ row :: rest, x = r) → collapseLon (row :: rest) = r := by
  refine ⟨rfl, rfl, ?_⟩
  intro r hall
  exact hall row (by simp)

/-- Witness for C9 on a grid with differing rows (first row returned) and a
grid with identical rows (any row returned). -/
theorem coordinate_collapse_first_witness :
    collapseLon [[1, 2], [3, 4]] = [1, 2] ∧
    collapseLat [[1, 2], [3, 4]] = [1, 3] ∧
    collapseLon [[5, 6], [5, 6]] = [5, 6] := by
  refine ⟨(coordinate_collapse_first [1, 2] [[3, 4]]).1, ?_,
    (coordinate_collapse_first [5, 6] [[5, 6]]).2.2 [5, 6] (by decide)⟩
  have h := (coordinate_collapse_first [1, 2] [[3, 4]]).2.1
  simpa using h

/-- C1: for any variable key whose uppercase form lies outside the supported
set, the call raises `UnboundLocalError` instead of returning the empty
dataset the claim describes: the source's invalid-variable branch is guarded
by `var == []`, which is never true for a string, so `ds` is never
assigned. -/
theorem unknown_key_raises (f : ℚ → ℚ → ℚ → ℚ) (nc prior : WRFFile)
    (ys : Option Nat) (sb : Option String) (varname : String)
    (h : pyUpper varname ∉
      (["U10", "V10", "T2", "RH", "PS", "CLDFRA", "PR", "LW", "SW"] :
        List String)) :
    wrf2gfs_params f nc varname ys sb prior = ⟨.error .unboundLocal, []⟩ := by
  simp only [List.mem_cons, List.not_mem_nil, or_false, not_or] at h
  obtain ⟨h1, h2, h3, h4, h5, h6, h7, h8, h9⟩ := h
  simp [wrf2gfs_params, h1, h2, h3, h4, h5, h6, h7, h8, h9]

/-- Witness for C1 at the concrete unsupported key "XYZ". -/
theorem unknown_key_raises_witness :
    pyUpper "XYZ" ∉
      (["U10", "V10", "T2", "RH", "PS", "CLDFRA", "PR", "LW", "SW"] :
        List String) ∧
    wrf2gfs_params (fun _ _ _ => 0)
      { validTime := 0, startDate := 0, startYear := 1, xlong := [[0]],
        xlat := [[0]], fields := [], cldfraLevels := none }
      "XYZ" none none
      { validTime := 0, startDate := 0, startYear := 1, xlong := [],
        xlat := [], fields := [], cldfraLevels := none }
      = ⟨.error .unboundLocal, []⟩ :=
  ⟨by decide, unknown_key_raises _ _ _ _ _ "XYZ" (by decide)⟩

/-- C2: with PSFC and T2 present, requesting RH with Q2 also present yields
the populated `Qair` dataset; with Q2 absent the call prints a diagnostic
naming exactly `Q2` but then raises `UnboundLocalError` (the degraded branch
assigns no `ds`), contradicting the claim that it returns an empty
dataset rather than raising. -/
theorem rh_dispatch_behavior (f : ℚ → ℚ → ℚ → ℚ) (nc prior : WRFFile)
    (ys : Option Nat) (sb : Option String) (p t : Grid)
    (hP : nc.fields.lookup "PSFC" = some p)
    (hT : nc.fields.lookup "T2" = some t) :
    (∀ q, nc.fields.lookup "Q2" = some q →
      wrf2gfs_params f nc "rh" ys sb prior
        = ⟨.ok (.mk "Qair"
            (gridZip3 f (gridMap (fun x => x / 100) p)
              (gridMap (fun x => x - 273.15) t) q)
            (hoursSince nc.validTime (jan1 (ys.getD nc.startYear))) none
            (collapseLat nc.xlat) (collapseLon nc.xlong)), []⟩) ∧
    (nc.fields.lookup "Q2" = none →
      wrf2gfs_params f nc "rh" ys sb prior
        = ⟨.error .unboundLocal,
           ["not all variables available",
            "program looking in file for :", "Q2"]⟩) := by
  have hup : pyUpper "rh" = "RH" := by decide
  have eP := element_exists_of_lookup hP
  have eT := element_exists_of_lookup hT
  constructor
  · intro q hQ
    have eQ := element_exists_of_lookup hQ
    simp [wrf2gfs_params, hup, eP, eT, eQ, hP, hT, hQ]
  · intro hQ
    have eQ := element_exists_of_lookup_none hQ
    simp [wrf2gfs_params, hup, eP, eT, eQ]

/-- Witness for C2 on a concrete file holding PSFC and T2 but not Q2. -/
theorem rh_dispatch_behavior_witness :
    wrf2gfs_params (fun _ _ _ => 0)
      { validTime := 0, startDate := 0, startYear := 1, xlong := [[0]],
        xlat := [[0]], fields := [("PSFC", [[100000]]), ("T2", [[300]])],
        cldfraLevels := none }
      "rh" none none
      { validTime := 0, startDate := 0, startYear := 1, xlong := [],
        xlat := [], fields := [], cldfraLevels := none }
      = ⟨.error .unboundLocal,
         ["not all variables available",
          "program looking in file for :", "Q2"]⟩ :=
  (rh_dispatch_behavior (fun _ _ _ => 0)
    { validTime := 0, startDate := 0, startYear := 1, xlong := [[0]],
      xlat := [[0]], fields := [("PSFC", [[100000]]), ("T2", [[300]])],
      cldfraLevels := none }
    { validTime := 0, startDate := 0, startYear := 1, xlong := [],
      xlat := [], fields := [], cldfraLevels := none }
    none none [[100000]] [[300]] (by decide) (by decide)).2 (by decide)

/-- C3 counterexample: the valid time equals the start date (lead 0) and
RAINNC, RAINC are present, yet with no prior-step path supplied the call
returns the empty dataset and a configuration error rather than the rain
field — a prior-step path IS required even at lead 0. -/
theorem pr_lead0_no_step_b_counterexample :
    leadHours 86400 86400 = 0 ∧
    wrf2gfs_params (fun _ _ _ => 0)
      { validTime := 86400, startDate := 86400, startYear := 1,
        xlong := [[5]], xlat := [[1]],
        fields := [("RAINNC", [[1]]), ("RAINC", [[2]])],
        cldfraLevels := none }
      "pr" none none
      { validTime := 0, startDate := 0, startYear := 1, xlong := [],
        xlat := [], fields := [], cldfraLevels := none }
      = ⟨.ok .empty, ["- - - - ERROR - - - -", "must be defined step_b"]⟩ := by
  constructor
  · simp [leadHours, leadSeconds, tdSeconds]
  · have hup : pyUpper "pr" = "PR" := by decide
    simp [wrf2gfs_params, hup]

/-- C3 amended: at lead 0, when a non-empty prior-step path is supplied, the
rain field equals RAINNC + RAINC of the current file alone and the prior
file's contents are ignored (the result is identical for any two prior
files); with no prior-step path supplied the call instead returns an empty
dataset. -/
theorem pr_lead0_current_file_only (f : ℚ → ℚ → ℚ → ℚ)
    (nc prior prior' : WRFFile) (ys : Option Nat) (s : String) (hs : s ≠ "")
    (h0 : leadSeconds nc.validTime nc.startDate = 0) (rnc rc : Grid)
    (hrnc : nc.fields.lookup "RAINNC" = some rnc)
    (hrc : nc.fields.lookup "RAINC" = some rc) :
    wrf2gfs_params f nc "pr" ys (some s) prior
      = ⟨.ok (.mk "rain" (gridZip (· + ·) rnc rc)
          (hoursSince nc.validTime (jan1 (ys.getD nc.startYear))) none
          (collapseLat nc.xlat) (collapseLon nc.xlong)), []⟩ ∧
    wrf2gfs_params f nc "pr" ys (some s) prior
      = wrf2gfs_params f nc "pr" ys (some s) prior' := by
  have h := pr_branch_lead0 f nc prior ys s hs
    (leadHours_eq_zero_of_leadSeconds h0) rnc rc hrnc hrc
  have h' := pr_branch_lead0 f nc prior' ys s hs
    (leadHours_eq_zero_of_leadSeconds h0) rnc rc hrnc hrc
  exact ⟨h, h.trans h'.symm⟩

/-- Witness for the amended C3: lead 0, path supplied, two different prior
files with different precipitation contents give the same result. -/
theorem pr_lead0_current_file_only_witness :
    wrf2gfs_params (fun _ _ _ => 0)
      { validTime := 86400, startDate := 86400, startYear := 1,
        xlong := [[5]], xlat := [[1]],
        fields := [("RAINNC", [[1]]), ("RAINC", [[2]])],
        cldfraLevels := none }
      "pr" none (some "wrfout_prev.nc")
      { validTime := 0, startDate := 0, startYear := 1, xlong := [],
        xlat := [], fields := [("RAINNC", [[7]]), ("RAINC", [[8]])],
        cldfraLevels := none }
      = ⟨.ok (.mk "rain" (gridZip (· + ·) [[1]] [[2]])
          (hoursSince 86400 (jan1 1)) none (collapseLat [[1]])
          (collapseLon [[5]])), []⟩ ∧
    wrf2gfs_params (fun _ _ _ => 0)
      { validTime := 86400, startDate := 86400, startYear := 1,
        xlong := [[5]], xlat := [[1]],
        fields := [("RAINNC", [[1]]), ("RAINC", [[2]])],
        cldfraLevels := none }
      "pr" none (some "wrfout_prev.nc")
      { validTime := 0, startDate := 0, startYear := 1, xlong := [],
        xlat := [], fields := [("RAINNC", [[7]]), ("RAINC", [[8]])],
        cldfraLevels := none }
      = wrf2gfs_params (fun _ _ _ => 0)
      { validTime := 86400, startDate := 86400, startYear := 1,
        xlong := [[5]], xlat := [[1]],
        fields := [("RAINNC", [[1]]), ("RAINC", [[2]])],
        cldfraLevels := none }
      "pr" none (some "wrfout_prev.nc")
      { validTime := 0, startDate := 0, startYear := 1, xlong := [],
        xlat := [], fields := [("RAINNC", [[90]]), ("RAINC", [[91]])],
        cldfraLevels := none } :=
  pr_lead0_current_file_only (fun _ _ _ => 0)
    { validTime := 86400, startDate := 86400, startYear := 1,
      xlong := [[5]], xlat := [[1]],
      fields := [("RAINNC", [[1]]), ("RAINC", [[2]])],
      cldfraLevels := none }
    { validTime := 0, startDate := 0, startYear := 1, xlong := [],
      xlat := [], fields := [("RAINNC", [[7]]), ("RAINC", [[8]])],
      cldfraLevels := none }
    { validTime := 0, startDate := 0, startYear := 1, xlong := [],
      xlat := [], fields := [("RAINNC", [[90]]), ("RAINC", [[91]])],
      cldfraLevels := none }
    none "wrfout_prev.nc" (by decide) (by decide) [[1]] [[2]]
    (by decide) (by decide)

/-- C4: at positive lead with a non-empty prior-step path supplied, the rain
field equals the current file's RAINNC + RAINC minus the prior file's
RAINNC + RAINC, elementwise. -/
theorem pr_lead_pos_difference (f : ℚ → ℚ → ℚ → ℚ) (nc prior : WRFFile)
    (ys : Option Nat) (s : String) (hs : s ≠ "")
    (hpos : 0 < leadHours nc.validTime nc.startDate)
    (rnc rc rncB rcB : Grid)
    (hrnc : nc.fields.lookup "RAINNC" = some rnc)
    (hrc : nc.fields.lookup "RAINC" = some rc)
    (hrncB : prior.fields.lookup "RAINNC" = some rncB)
    (hrcB : prior.fields.lookup "RAINC" = some rcB) :
    wrf2gfs_params f nc "pr" ys (some s) prior
      = ⟨.ok (.mk "rain"
          (gridZip (· - ·) (gridZip (· + ·) rnc rc)
            (gridZip (· + ·) rncB rcB))
          (hoursSince nc.validTime (jan1 (ys.getD nc.startYear))) none
          (collapseLat nc.xlat) (collapseLon nc.xlong)), []⟩ := by
  have hup : pyUpper "pr" = "PR" := by decide
  simp [wrf2gfs_params, hup, hs, hpos.ne', hrnc, hrc, hrncB, hrcB]

/-- Witness for C4 at lead 1 hour with concrete accumulations: rain =
(10 + 20) − (3 + 4). -/
theorem pr_lead_pos_difference_witness :
    (0 : ℚ) < leadHours 90000 86400 ∧
    wrf2gfs_params (fun _ _ _ => 0)
      { validTime := 90000, startDate := 86400, startYear := 1,
        xlong := [[5]], xlat := [[1]],
        fields := [("RAINNC", [[10]]), ("RAINC", [[20]])],
        cldfraLevels := none }
      "pr" none (some "wrfout_prev.nc")
      { validTime := 86400, startDate := 86400, startYear := 1,
        xlong := [[5]], xlat := [[1]],
        fields := [("RAINNC", [[3]]), ("RAINC", [[4]])],
        cldfraLevels := none }
      = ⟨.ok (.mk "rain"
          (gridZip (· - ·) (gridZip (· + ·) [[10]] [[20]])
            (gridZip (· + ·) [[3]] [[4]]))
          (hoursSince 90000 (jan1 1)) none (collapseLat [[1]])
          (collapseLon [[5]])), []⟩ := by
  have hpos : (0 : ℚ) < leadHours 90000 86400 := by
    norm_num [leadHours, leadSeconds, tdSeconds]
  exact ⟨hpos, pr_lead_pos_difference (fun _ _ _ => 0)
    { validTime := 90000, startDate := 86400, startYear := 1,
      xlong := [[5]], xlat := [[1]],
      fields := [("RAINNC", [[10]]), ("RAINC", [[20]])],
      cldfraLevels := none }
    { validTime := 86400, startDate := 86400, startYear := 1,
      xlong := [[5]], xlat := [[1]],
      fields := [("RAINNC", [[3]]), ("RAINC", [[4]])],
      cldfraLevels := none }
    none "wrfout_prev.nc" (by decide) hpos [[10]] [[20]] [[3]] [[4]]
    (by decide) (by decide) (by decide) (by decide)⟩

/-- C5: at positive lead with no prior-step path supplied, the call returns
normally with the empty dataset and prints the configuration-error
diagnostic. -/
theorem pr_no_step_b_empty (f : ℚ → ℚ → ℚ → ℚ) (nc prior : WRFFile)
    (ys : Option Nat) (hpos : 0 < leadHours nc.validTime nc.startDate) :
    wrf2gfs_params f nc "pr" ys none prior
      = ⟨.ok .empty, ["- - - - ERROR - - - -", "must be defined step_b"]⟩ := by
  have hup : pyUpper "pr" = "PR" := by decide
  simp [wrf2gfs_params, hup]

/-- Witness for C5 at lead 1 hour with no prior-step path. -/
theorem pr_no_step_b_empty_witness :
    (0 : ℚ) < leadHours 90000 86400 ∧
    wrf2gfs_params (fun _ _ _ => 0)
      { validTime := 90000, startDate := 86400, startYear := 1,
        xlong := [[5]], xlat := [[1]],
        fields := [("RAINNC", [[10]]), ("RAINC", [[20]])],
        cldfraLevels := none }
      "pr" none none
      { validTime := 0, startDate := 0, startYear := 1, xlong := [],
        xlat := [], fields := [], cldfraLevels := none }
      = ⟨.ok .empty, ["- - - - ERROR - - - -", "must be defined step_b"]⟩ := by
  have hpos : (0 : ℚ) < leadHours 90000 86400 := by
    norm_num [leadHours, leadSeconds, tdSeconds]
  exact ⟨hpos, pr_no_step_b_empty (fun _ _ _ => 0)
    { validTime := 90000, startDate := 86400, startYear := 1,
      xlong := [[5]], xlat := [[1]],
      fields := [("RAINNC", [[10]]), ("RAINC", [[20]])],
      cldfraLevels := none }
    { validTime := 0, startDate := 0, startYear := 1, xlong := [],
      xlat := [], fields := [], cldfraLevels := none }
    none hpos⟩

/-- C10: `lead_hours` always lies in the half-open interval [0, 24); a valid
time an exact whole number of days after the start date therefore gives
`lead_hours = 0`, and the precipitation dispatch (run with its required
prior-step path supplied) then takes the zero-lead branch, using the current
file's accumulation alone, regardless of how many days have elapsed. -/
theorem lead_hours_range_day_wrap (v s : Int) (f : ℚ → ℚ → ℚ → ℚ)
    (nc prior : WRFFile) (ys : Option Nat) (p : String) (k : Int)
    (hp : p ≠ "") (hday : nc.validTime - nc.startDate = 86400 * k)
    (rnc rc : Grid) (hrnc : nc.fields.lookup "RAINNC" = some rnc)
    (hrc : nc.fields.lookup "RAINC" = some rc) :
    (0 ≤ leadHours v s ∧ leadHours v s < 24) ∧
    leadHours nc.validTime nc.startDate = 0 ∧
    wrf2gfs_params f nc "pr" ys (some p) prior
      = ⟨.ok (.mk "rain" (gridZip (· + ·) rnc rc)
          (hoursSince nc.validTime (jan1 (ys.getD nc.startYear))) none
          (collapseLat nc.xlat) (collapseLon nc.xlong)), []⟩ := by
  have hbounds : 0 ≤ leadSeconds v s ∧ leadSeconds v s < 86400 := by
    unfold leadSeconds tdSeconds
    omega
  have hz : leadSeconds nc.validTime nc.startDate = 0 := by
    unfold leadSeconds tdSeconds
    omega
  refine ⟨⟨?_, ?_⟩, leadHours_eq_zero_of_leadSeconds hz,
    pr_branch_lead0 f nc prior ys p hp (leadHours_eq_zero_of_leadSeconds hz)
      rnc rc hrnc hrc⟩
  · exact div_nonneg (by exact_mod_cast hbounds.1) (by norm_num)
  · rw [leadHours, div_lt_iff₀ (by norm_num)]
    have hcast : (leadSeconds v s : ℚ) < 86400 := by exact_mod_cast hbounds.2
    linarith

/-- Witness for C10: the valid time is exactly two days after the start
date; the lead is 0 and the rain field is the current file's sum. -/
theorem lead_hours_range_day_wrap_witness :
    (0 ≤ leadHours 90000 0 ∧ leadHours 90000 0 < 24) ∧
    leadHours 172800 0 = 0 ∧
    wrf2gfs_params (fun _ _ _ => 0)
      { validTime := 172800, startDate := 0, startYear := 1,
        xlong := [[5]], xlat := [[1]],
        fields := [("RAINNC", [[3]]), ("RAINC", [[4]])],
        cldfraLevels := none }
      "pr" none (some "wrfout_prev.nc")
      { validTime := 0, startDate := 0, startYear := 1, xlong := [],
        xlat := [], fields := [("RAINNC", [[1]]), ("RAINC", [[1]])],
        cldfraLevels := none }
      = ⟨.ok (.mk "rain" (gridZip (· + ·) [[3]] [[4]])
          (hoursSince 172800 (jan1 1)) none (collapseLat [[1]])
          (collapseLon [[5]])), []⟩ :=
  lead_hours_range_day_wrap 90000 0 (fun _ _ _ => 0)
    { validTime := 172800, startDate := 0, startYear := 1,
      xlong := [[5]], xlat := [[1]],
      fields := [("RAINNC", [[3]]), ("RAINC", [[4]])],
      cldfraLevels := none }
    { validTime := 0, startDate := 0, startYear := 1, xlong := [],
      xlat := [], fields := [("RAINNC", [[1]]), ("RAINC", [[1]])],
      cldfraLevels := none }
    none "wrfout_prev.nc" 2 (by decide) (by norm_num) [[3]] [[4]]
    (by decide) (by decide)

end Wrfpyx
